import Mathlib

/-!
Shallow embedding of the zmate sshd bridge (src/sshd/src) and proofs of the
spec claims about it. Bytes are modelled as `Nat`, byte sequences as
`List Nat`, fallible or panicking code as `Option`, and channels as lists of
sent messages or explicit effect lists.
-/

/-- Signal kinds of the transport library (russh::Sig). -/
inductive Sig where
  | abrt | alrm | fpe | hup | ill | int | kill | pipe | quit | segv | term
  | usr1 | usr2
  | custom (s : String)
  deriving DecidableEq

/-- PtyRequest (src/sshd/src/lib.rs lines 50-57): geometry and modes captured
from a pty request. Mode flags are modelled as plain numbers. -/
structure PtyRequest where
  term : String
  col_width : Nat
  row_height : Nat
  pix_width : Nat
  pix_height : Nat
  modes : List (Nat × Nat)
  deriving DecidableEq

/-- libc::winsize with the four u16 fields. -/
structure Winsize where
  ws_row : Nat
  ws_col : Nat
  ws_xpixel : Nat
  ws_ypixel : Nat
  deriving DecidableEq

/-- HandlerEvent (src/sshd/src/handler.rs lines 12-20). The reply handle and
the ack sender carried by Authenticated are kept abstract; channel ids are
numbers. -/
inductive HandlerEvent where
  | authenticated
  | ptyRequest (channel : Nat) (req : PtyRequest)
  | shellRequest (channel : Nat)
  | data (channel : Nat) (bytes : List Nat)
  | signal (channel : Nat) (sig : Sig)
  | windowChangeRequest (channel : Nat) (ws : Winsize)
  deriving DecidableEq

/-- Handler::data (src/sshd/src/handler.rs lines 75-88): copies the payload,
and when its first byte equals 4 replaces the whole vector by the single
byte 17, then emits a Data event. Indexing data[0] on an empty payload
panics, modelled as `none`. -/
def Handler.data (channel : Nat) (payload : List Nat) : Option HandlerEvent :=
  match payload with
  | [] => none
  | b :: rest => some (.data channel (if b = 4 then [17] else b :: rest))

/-- Handler::signal (src/sshd/src/handler.rs lines 131-139): forwards the
signal unchanged as a Signal event. -/
def Handler.signal (channel : Nat) (s : Sig) : HandlerEvent :=
  .signal channel s

/-- Handler::window_change_request (src/sshd/src/handler.rs lines 141-160):
truncates each dimension to u16 and emits a WindowChangeRequest event. -/
def Handler.window_change_request (channel : Nat)
    (col_width row_height pix_width pix_height : Nat) : HandlerEvent :=
  .windowChangeRequest channel
    { ws_row := row_height % 65536, ws_col := col_width % 65536,
      ws_xpixel := pix_width % 65536, ws_ypixel := pix_height % 65536 }

/-- Mutable fields of the Session struct (src/sshd/src/session.rs lines 7-17).
The reply handle is kept abstract, the channels are modelled as effects, and
of zellij_cli_args only the command field mutated by the bridge is kept (the
session name inside the Attach command it builds). -/
structure SessionState where
  handle : Option Unit
  pty_request : Option PtyRequest
  channel_id : Option Nat
  cliAttachName : Option (Option String)
  deriving DecidableEq

/-- Session::new (src/sshd/src/session.rs lines 20-35): all optional fields
start empty. -/
def Session.new : SessionState :=
  { handle := none, pty_request := none, channel_id := none,
    cliAttachName := none }

/-- Observable actions of one handle_handler_event call: starting the local
server, acknowledging authentication, spawning the client thread plus its
reply-forwarding task, and sends on the inbound data and signal channels. -/
inductive BridgeEffect where
  | initServer
  | sendAck
  | spawnClient (winSize : Winsize) (channel : Nat) (replyChannel : Nat)
  | sendData (bytes : List Nat)
  | sendSignal (s : Sig)
  deriving DecidableEq

/-- Winsize built in the ShellRequest branch (src/sshd/src/session.rs lines
69-74) from the cached pty request, truncating each field to u16. -/
def winsizeOfPty (p : PtyRequest) : Winsize :=
  { ws_row := p.row_height % 65536, ws_col := p.col_width % 65536,
    ws_xpixel := p.pix_width % 65536, ws_ypixel := p.pix_height % 65536 }

/-- Session::handle_handler_event (src/sshd/src/session.rs lines 46-115).
`envName` is the session-name environment variable at entry and `genName`
the name init_server would generate when that variable is unset. A `none`
result models a panic: the ShellRequest branch unwraps the cached
pty_request, handle and channel_id. Data and Signal sends ignore errors. -/
def Session.handle_handler_event (genName : String) (envName : Option String)
    (st : SessionState) (ev : HandlerEvent) :
    Option (SessionState × List BridgeEffect) :=
  match ev with
  | .authenticated =>
      let envAfter := match envName with
        | none => some genName
        | some n => some n
      some ({ st with handle := some (), cliAttachName := some envAfter },
        (if envName.isNone then [BridgeEffect.initServer] else [])
          ++ [BridgeEffect.sendAck])
  | .ptyRequest ch req =>
      some ({ st with pty_request := some req, channel_id := some ch }, [])
  | .shellRequest ch =>
      match st.pty_request with
      | none => none
      | some p =>
        match st.handle with
        | none => none
        | some _ =>
          match st.channel_id with
          | none => none
          | some cid =>
              some (st, [BridgeEffect.spawnClient (winsizeOfPty p) ch cid])
  | .data _ bytes => some (st, [BridgeEffect.sendData bytes])
  | .windowChangeRequest _ _ => some (st, [])
  | .signal _ s => some (st, [BridgeEffect.sendSignal s])

/-- Possible observations of running Session::run for a bounded number of
steps: still looping, aborted by a panic inside handle_handler_event, or
returned normally (which no branch of the loop produces). -/
inductive RunOutcome where
  | running (st : SessionState)
  | panicked
  | returned
  deriving DecidableEq

/-- Session::run (src/sshd/src/session.rs lines 37-44), fuel-indexed. The
event source is the list of rx.recv() results; once exhausted the closed
channel keeps yielding `none`, and the loop body is an if-let with no break
or return. -/
def Session.run (genName : String) (envName : Option String) :
    Nat → SessionState → List (Option HandlerEvent) → RunOutcome
  | 0, st, _ => .running st
  | n + 1, st, [] => Session.run genName envName n st []
  | n + 1, st, none :: rest => Session.run genName envName n st rest
  | n + 1, st, some ev :: rest =>
      match Session.handle_handler_event genName envName st ev with
      | none => .panicked
      | some (st2, _) => Session.run genName envName n st2 rest

/-- Outcome of one handle_signals call. -/
inductive SignalOutcome where
  | quitInvoked
  | returnedNoQuit
  | panicked
  deriving DecidableEq

/-- SshInputOutput::handle_signals (src/sshd/src/ssh_input_output.rs lines
152-163): one recv on the signal channel, modelled as `Option Sig` with
`none` for a closed channel. TERM, INT, QUIT and HUP invoke the quit
callback; any other signal hits an unreachable branch (a panic). -/
def handle_signals (recvd : Option Sig) : SignalOutcome :=
  match recvd with
  | some s =>
      match s with
      | .term => .quitInvoked
      | .int => .quitInvoked
      | .quit => .quitInvoked
      | .hup => .quitInvoked
      | _ => .panicked
  | none => .returnedNoQuit

/-- Result of SshInputOutput::read_from_stdin. -/
inductive ReadResult where
  | ok (bytes : List Nat)
  | errChannelDisconnected
  | errSessionEnded
  deriving DecidableEq

/-- SshInputOutput::read_from_stdin (src/sshd/src/ssh_input_output.rs lines
70-122). Inputs: the replay buffer, the cached session name observed at call
time, the recv result (`none` models a disconnected channel) and the session
name observed after the receive. Returns the new replay buffer and the call
result. -/
def read_from_stdin (buffered : Option (List Nat))
    (nameAtCall : Option String) (recvResult : Option (List Nat))
    (nameAfter : Option String) : Option (List Nat) × ReadResult :=
  match buffered with
  | some b => (none, .ok b)
  | none =>
    match recvResult with
    | none => (none, .errChannelDisconnected)
    | some read_buf =>
      if nameAtCall.isSome ∧ nameAtCall ≠ nameAfter then
        (some read_buf, .errSessionEnded)
      else
        (none, .ok read_buf)

/-- ZellijClientData (src/sshd/src/lib.rs lines 14-17); the Data payload is a
string, modelled as its list of unicode scalar values. -/
inductive ZellijClientData where
  | data (codepoints : List Nat)
  | exit
  deriving DecidableEq

/-- Continuation byte test for utf8 decoding: 0x80..0xBF. -/
def isUtf8Cont (b : Nat) : Bool := 0x80 ≤ b && b ≤ 0xBF

/-- Lower bound of the first continuation byte given the lead byte. -/
def utf8Cont1Lo (b : Nat) : Nat :=
  if b = 0xE0 then 0xA0 else if b = 0xF0 then 0x90 else 0x80

/-- Upper bound of the first continuation byte given the lead byte. -/
def utf8Cont1Hi (b : Nat) : Nat :=
  if b = 0xED then 0x9F else if b = 0xF4 then 0x8F else 0xBF

/-- First continuation byte test for utf8 decoding, lead-dependent. -/
def isUtf8Cont1 (b c : Nat) : Bool :=
  utf8Cont1Lo b ≤ c && c ≤ utf8Cont1Hi b

/-- Lossy utf8 decoding as performed by String::from_utf8_lossy in
ServerOutput::write: valid sequences decode to their scalar value, each
maximal invalid subpart becomes one replacement character 0xFFFD, and an
incomplete sequence at the end becomes a single 0xFFFD. -/
def utf8LossyDecode : List Nat → List Nat
  | [] => []
  | b :: rest =>
    if b ≤ 0x7F then b :: utf8LossyDecode rest
    else if 0xC2 ≤ b && b ≤ 0xDF then
      match rest with
      | [] => [0xFFFD]
      | c1 :: rest1 =>
        if isUtf8Cont c1 then
          ((b - 0xC0) * 0x40 + (c1 - 0x80)) :: utf8LossyDecode rest1
        else 0xFFFD :: utf8LossyDecode (c1 :: rest1)
    else if 0xE0 ≤ b && b ≤ 0xEF then
      match rest with
      | [] => [0xFFFD]
      | c1 :: rest1 =>
        if isUtf8Cont1 b c1 then
          match rest1 with
          | [] => [0xFFFD]
          | c2 :: rest2 =>
            if isUtf8Cont c2 then
              ((b - 0xE0) * 0x1000 + (c1 - 0x80) * 0x40 + (c2 - 0x80))
                :: utf8LossyDecode rest2
            else 0xFFFD :: utf8LossyDecode (c2 :: rest2)
        else 0xFFFD :: utf8LossyDecode (c1 :: rest1)
    else if 0xF0 ≤ b && b ≤ 0xF4 then
      match rest with
      | [] => [0xFFFD]
      | c1 :: rest1 =>
        if isUtf8Cont1 b c1 then
          match rest1 with
          | [] => [0xFFFD]
          | c2 :: rest2 =>
            if isUtf8Cont c2 then
              match rest2 with
              | [] => [0xFFFD]
              | c3 :: rest3 =>
                if isUtf8Cont c3 then
                  ((b - 0xF0) * 0x40000 + (c1 - 0x80) * 0x1000
                      + (c2 - 0x80) * 0x40 + (c3 - 0x80))
                    :: utf8LossyDecode rest3
                else 0xFFFD :: utf8LossyDecode (c3 :: rest3)
            else 0xFFFD :: utf8LossyDecode (c2 :: rest2)
        else 0xFFFD :: utf8LossyDecode (c1 :: rest1)
    else 0xFFFD :: utf8LossyDecode rest

/-- Send on the outbound channel: appends the message to the queue, or fails
when the receiver is gone (`closed`). -/
def channelSend (closed : Bool) (queue : List ZellijClientData)
    (msg : ZellijClientData) : Option (List ZellijClientData) :=
  if closed then none else some (queue ++ [msg])

/-- ServerOutput::write (src/sshd/src/lib.rs lines 33-48): sends the lossy
utf8 decoding of the buffer as a Data notification, discards a send failure,
and returns Ok with the full buffer length. Result: the new queue and the
io::Result payload (`some n` is Ok(n)). -/
def ServerOutput.write (closed : Bool) (queue : List ZellijClientData)
    (buf : List Nat) : List ZellijClientData × Option Nat :=
  match channelSend closed queue (ZellijClientData.data (utf8LossyDecode buf)) with
  | some q2 => (q2, some buf.length)
  | none => (queue, some buf.length)

/-- ServerOutput::flush (src/sshd/src/lib.rs lines 45-47): always Ok. -/
def ServerOutput.flush : Option Unit := some ()

/-- One command of a saved layout; only the start_suspended flag matters to
the bridge. -/
structure LayoutCommand where
  start_suspended : Option Bool
  deriving DecidableEq

/-- Saved layout, kept to its commands. The Layout type lives in the external
zellij-utils crate; this model records what resurrection needs. -/
structure Layout where
  commands : List LayoutCommand
  deriving DecidableEq

/-- Modelled from the spec: Layout::recursively_add_start_suspended of the
external zellij-utils crate (absent from src), which sets the given
start_suspended value on every command of the layout. -/
def Layout.recursivelyAddStartSuspended (l : Layout) (v : Option Bool) :
    Layout :=
  { commands := l.commands.map (fun _ => { start_suspended := v }) }

/-- External session registry as the lifecycle code observes it: the live
session names and the dead sessions with a saved layout. -/
structure Registry where
  liveSessions : List String
  resurrectable : List (String × Layout)
  deriving DecidableEq

/-- Modelled from the spec: session_util::session_exists (absent from src),
which reports whether a live session with this name exists. -/
def session_exists (reg : Registry) (name : String) : Bool :=
  reg.liveSessions.contains name

/-- Modelled from the spec: session_util::resurrection_layout (absent from
src), which returns the saved layout of a dead session of this name. -/
def resurrection_layout (reg : Registry) (name : String) : Option Layout :=
  (reg.resurrectable.find? (fun p => p.1 == name)).map Prod.snd

/-- Modelled from the spec: the result type of session_util::match_session_name
(exact, unique-by-first-bytes, ambiguous, or none). -/
inductive SessionNameMatch where
  | exact (s : String)
  | uniqueMatch (s : String)
  | ambiguousMatch (ss : List String)
  | noMatch
  deriving DecidableEq

/-- Modelled from the spec: session_util::match_session_name (absent from
src): an exact live name matches exactly; otherwise the live names starting
with the given text give a unique, ambiguous or empty match. -/
def match_session_name (reg : Registry) (wanted : String) : SessionNameMatch :=
  if reg.liveSessions.contains wanted then .exact wanted
  else
    match reg.liveSessions.filter (fun s => s.startsWith wanted) with
    | [] => .noMatch
    | [s] => .uniqueMatch s
    | ss => .ambiguousMatch ss

/-- Modelled from the spec: session_util::ActiveSession (absent from src). -/
inductive ActiveSession where
  | nothing
  | one (s : String)
  | many
  deriving DecidableEq

/-- Modelled from the spec: session_util::get_active_session (absent from
src): no live session, exactly one, or several. -/
def get_active_session (reg : Registry) : ActiveSession :=
  match reg.liveSessions with
  | [] => .nothing
  | [s] => .one s
  | _ => .many

/-- ClientInfo of the external zellij-client crate as used by start_client;
attach options are not modelled. -/
inductive ClientInfo where
  | new (name : String)
  | attach (name : String)
  | resurrect (name : String) (layout : Layout)
  deriving DecidableEq

/-- attach_with_session_name (src/sshd/src/zellij.rs lines 303-354). A `none`
result models a process::exit path (ambiguous match, no match, or no active
session without create). `freshName` stands for the unique name
create_new_client would generate. -/
def attach_with_session_name (reg : Registry) (freshName : String)
    (session_name : Option String) (create : Bool) : Option ClientInfo :=
  match session_name with
  | some session =>
    if create then
      if session_exists reg session then some (.attach session)
      else some (.new session)
    else
      match match_session_name reg session with
      | .uniqueMatch s => some (.attach s)
      | .exact s => some (.attach s)
      | .ambiguousMatch _ => none
      | .noMatch => none
  | none =>
    match get_active_session reg with
    | .nothing => if create then some (.new freshName) else none
    | .one s => some (.attach s)
    | .many => none

/-- The client-resolution step of start_client for the non-index attach path
(src/sshd/src/zellij.rs lines 429-450): a dead session with a saved layout
and no live session of the requested name resurrects (running its commands
immediately when force_run_commands is set); every other case falls through
to attach_with_session_name. -/
def start_client_resolve (reg : Registry) (freshName : String)
    (session_name : Option String) (create : Bool)
    (force_run_commands : Bool) : Option ClientInfo :=
  let sessionExists : Bool :=
    match session_name with
    | some s => session_exists reg s
    | none => false
  let resLayout := session_name.bind (fun s => resurrection_layout reg s)
  match session_name, resLayout with
  | some name, some layout =>
    if !sessionExists then
      some (.resurrect name
        (if force_run_commands then
          layout.recursivelyAddStartSuspended (some false)
        else layout))
    else
      attach_with_session_name reg freshName session_name create
  | _, _ => attach_with_session_name reg freshName session_name create

/-- generate_unique_session_name (src/sshd/src/zellij.rs lines 690-716).
`sessions` is `none` when listing live sessions fails; `dead_sessions` are
the resurrectable names; `candidates` is the stream drawn from the name
generator. A `none` result models the process::exit(1) failure paths. -/
def generate_unique_session_name (sessions : Option (List String))
    (dead_sessions : List String) (candidates : List String) :
    Option String :=
  match sessions with
  | none => none
  | some sessions =>
      (candidates.take 1000).find?
        (fun name => !sessions.contains name && !dead_sessions.contains name)

/-! Claims -/

/-- C1 counterexample: for the payload [4, 65] the forwarded Data event
carries [17] with the tail byte 65 dropped, not [17, 65] as the claim
states. -/
theorem handler_data_eot_drops_tail :
    Handler.data 0 [4, 65] = some (HandlerEvent.data 0 [17])
    ∧ Handler.data 0 [4, 65] ≠ some (HandlerEvent.data 0 [17, 65]) := by
  constructor
  · rfl
  · decide

/-- C1 (amended): for every nonempty payload whose first byte is 4 the
forwarded Data event carries exactly the single byte 17, discarding every
byte after byte 0; a payload whose first byte is not 4 is forwarded
unchanged. -/
theorem handler_data_eot_rewrite (ch b : Nat) (rest : List Nat)
    (h : b ≠ 4) :
    Handler.data ch (4 :: rest) = some (HandlerEvent.data ch [17])
    ∧ Handler.data ch (b :: rest) = some (HandlerEvent.data ch (b :: rest)) := by
  constructor
  · rfl
  · simp [Handler.data, h]

/-- C1 witness: the amended claim at channel 0, first byte 5, tail [65]. -/
theorem handler_data_eot_rewrite_witness :
    Handler.data 0 (4 :: [65]) = some (HandlerEvent.data 0 [17])
    ∧ Handler.data 0 (5 :: [65]) = some (HandlerEvent.data 0 (5 :: [65])) :=
  handler_data_eot_rewrite 0 5 [65] (by decide)

/-- C2 counterexample: on the fresh bridge state, which has captured no
PtyRequest, a ShellRequest event makes handle_handler_event panic (the
unwrap of the absent pty_request), refuting the claim that the bridge does
not crash. -/
theorem shell_request_without_pty_crashes :
    Session.handle_handler_event "s" none Session.new
      (HandlerEvent.shellRequest 0) = none := rfl

/-- C2 (amended): on every bridge state with no captured PtyRequest, a
ShellRequest event panics the bridge (modelled as the none result) instead
of being rejected or ignored. -/
theorem shell_request_without_pty_panics (genName : String)
    (envName : Option String) (st : SessionState) (ch : Nat)
    (h : st.pty_request = none) :
    Session.handle_handler_event genName envName st
      (HandlerEvent.shellRequest ch) = none := by
  simp [Session.handle_handler_event, h]

/-- C2 witness: the amended claim at the fresh bridge state and channel 1. -/
theorem shell_request_without_pty_panics_witness :
    Session.handle_handler_event "s" none Session.new
      (HandlerEvent.shellRequest 1) = none :=
  shell_request_without_pty_panics "s" none Session.new 1 rfl

/-- C4: on the empty payload the data callback indexes byte 0 out of bounds
and panics (the none result) for every channel, instead of forwarding an
empty Data event. -/
theorem handler_data_empty_panics (ch : Nat) :
    Handler.data ch [] = none := rfl

/-- C9: a WindowChange event is a no-op: the bridge state is returned
unchanged in every field and no effect is produced on any channel. -/
theorem window_change_is_noop (genName : String) (envName : Option String)
    (st : SessionState) (ch : Nat) (ws : Winsize) :
    Session.handle_handler_event genName envName st
      (HandlerEvent.windowChangeRequest ch ws) = some (st, []) := rfl

/-- Terminate-class signals: HUP, INT, QUIT, TERM. -/
def Sig.isTerminate : Sig → Bool
  | .term => true
  | .int => true
  | .quit => true
  | .hup => true
  | _ => false

/-- C3 counterexample: the handler forwards USR1 unchanged as a Signal event,
the bridge pushes it unchanged onto the inbound-signal channel, and
handle_signals on USR1 hits the unreachable branch (a panic) — so the
non-terminate branch is reachable by a signal the handler can forward. -/
theorem handle_signals_unreachable_reachable :
    Handler.signal 0 Sig.usr1 = HandlerEvent.signal 0 Sig.usr1
    ∧ Session.handle_handler_event "s" none Session.new
        (HandlerEvent.signal 0 Sig.usr1)
        = some (Session.new, [BridgeEffect.sendSignal Sig.usr1])
    ∧ handle_signals (some Sig.usr1) = SignalOutcome.panicked := by
  refine ⟨rfl, rfl, rfl⟩

/-- C3 (amended): a terminate-class signal (HUP, INT, QUIT, TERM) invokes the
quit callback and returns; but the upstream mapping is the identity — the
handler forwards every signal unchanged and the bridge pushes it unchanged —
so every non-terminate signal delivered on the channel reaches the
unreachable branch, a panic. -/
theorem handle_signals_spec (s : Sig) (genName : String)
    (envName : Option String) (st : SessionState) (ch : Nat) :
    handle_signals (some s)
      = (if s.isTerminate then SignalOutcome.quitInvoked
         else SignalOutcome.panicked)
    ∧ Handler.signal ch s = HandlerEvent.signal ch s
    ∧ Session.handle_handler_event genName envName st
        (HandlerEvent.signal ch s)
        = some (st, [BridgeEffect.sendSignal s]) := by
  refine ⟨?_, rfl, rfl⟩
  cases s <;> rfl

/-- C5: with an empty replay buffer, a call that saw a cached session name
which changed across the blocking receive fails with the session-ended error
and stashes the received bytes; a call that saw no cached name returns the
bytes whatever the name becomes. -/
theorem read_from_stdin_stale_session (n : String) (nameAfter : Option String)
    (bytes : List Nat) (h : some n ≠ nameAfter) :
    read_from_stdin none (some n) (some bytes) nameAfter
      = (some bytes, ReadResult.errSessionEnded)
    ∧ read_from_stdin none none (some bytes) nameAfter
      = (none, ReadResult.ok bytes) := by
  constructor
  · simp [read_from_stdin, h]
  · simp [read_from_stdin]

/-- C5 witness: cached name a changing to b fails and stashes [1]; an unset
cached name returns [1] despite the name becoming b. -/
theorem read_from_stdin_stale_session_witness :
    read_from_stdin none (some "a") (some [1]) (some "b")
      = (some [1], ReadResult.errSessionEnded)
    ∧ read_from_stdin none none (some [1]) (some "b")
      = (none, ReadResult.ok [1]) :=
  read_from_stdin_stale_session "a" (some "b") [1] (by decide)

/-- C6: a write on the stdout sink returns Ok with the full buffer length and
flush returns Ok whether the outbound channel is open or closed; when open,
the lossy utf8 decoding of the bytes is enqueued as a Data notification, and
when closed the send failure is discarded and the queue is unchanged. -/
theorem server_output_write_never_fails (queue : List ZellijClientData)
    (buf : List Nat) :
    (ServerOutput.write false queue buf).2 = some buf.length
    ∧ (ServerOutput.write true queue buf).2 = some buf.length
    ∧ (ServerOutput.write false queue buf).1
        = queue ++ [ZellijClientData.data (utf8LossyDecode buf)]
    ∧ (ServerOutput.write true queue buf).1 = queue
    ∧ ServerOutput.flush = some () := by
  refine ⟨rfl, rfl, rfl, rfl, rfl⟩

/-- C7: with no live session of the requested name (here: no live sessions at
all) and a saved layout for it, resolution with create picks Resurrect with
that layout, running its commands immediately when force_run_commands is
set, rather than New or Attach. -/
theorem resurrect_takes_precedence (reg : Registry) (freshName name : String)
    (layout : Layout) (frc : Bool)
    (hlive : reg.liveSessions = [])
    (hres : resurrection_layout reg name = some layout) :
    start_client_resolve reg freshName (some name) true frc =
      some (ClientInfo.resurrect name
        (if frc then layout.recursivelyAddStartSuspended (some false)
         else layout)) := by
  simp [start_client_resolve, session_exists, hlive, hres]

/-- C7 witness: zero live sessions, a resurrectable layout for beta with one
suspended command, requested name beta, create and force_run_commands set:
resolution yields Resurrect beta with the command marked to run. -/
theorem resurrect_takes_precedence_witness :
    start_client_resolve
      { liveSessions := [],
        resurrectable := [("beta", { commands := [{ start_suspended := some true }] })] }
      "fresh" (some "beta") true true =
      some (ClientInfo.resurrect "beta"
        (if true then
          Layout.recursivelyAddStartSuspended
            { commands := [{ start_suspended := some true }] } (some false)
         else { commands := [{ start_suspended := some true }] })) :=
  resurrect_takes_precedence
    { liveSessions := [],
      resurrectable := [("beta", { commands := [{ start_suspended := some true }] })] }
    "fresh" "beta" { commands := [{ start_suspended := some true }] } true
    rfl (by decide)

/-- C8: whenever unique-name generation returns a name, that name is one of
the first 1000 candidates, is in neither the live-session set nor the
dead-session set, and every candidate before it collides with one of the
sets; and when every one of the first 1000 candidates collides, generation
reports failure (the process exits non-zero, modelled as none). -/
theorem generate_unique_session_name_spec
    (sessions dead candidates : List String) :
    (∀ name,
      generate_unique_session_name (some sessions) dead candidates = some name →
        (sessions.contains name = false ∧ dead.contains name = false)
        ∧ ∃ as bs, candidates.take 1000 = as ++ name :: bs
            ∧ ∀ a ∈ as,
                sessions.contains a = true ∨ dead.contains a = true)
    ∧ ((∀ n ∈ candidates.take 1000,
          sessions.contains n = true ∨ dead.contains n = true) →
        generate_unique_session_name (some sessions) dead candidates = none) := by
  constructor
  · intro name h
    have h' : (candidates.take 1000).find?
        (fun nm => !sessions.contains nm && !dead.contains nm) = some name := h
    have hp := List.find?_some h'
    simp only [Bool.and_eq_true, Bool.not_eq_true'] at hp
    rw [List.find?_eq_some] at h'
    obtain ⟨-, as, bs, heq, hall⟩ := h'
    refine ⟨hp, as, bs, heq, ?_⟩
    intro a ha
    have h2 := hall a ha
    simp only [Bool.not_and, Bool.not_not, Bool.or_eq_true] at h2
    exact h2
  · intro hall
    have hnone : (candidates.take 1000).find?
        (fun nm => !sessions.contains nm && !dead.contains nm) = none := by
      rw [List.find?_eq_none]
      intro x hx
      rcases hall x hx with h1 | h1
      · simp only [h1, Bool.not_true, Bool.false_and]
        exact Bool.false_ne_true
      · simp only [h1, Bool.not_true, Bool.and_false]
        exact Bool.false_ne_true
    exact hnone

/-- C8 witness: c is returned past the colliding candidates a and b and lies
in neither set; and with both candidates x and y colliding, generation
fails. -/
theorem generate_unique_session_name_spec_witness :
    ((["a"] : List String).contains "c" = false
      ∧ (["b"] : List String).contains "c" = false)
    ∧ generate_unique_session_name (some ["x"]) ["y"] ["x", "y"] = none := by
  constructor
  · exact ((generate_unique_session_name_spec ["a"] ["b"] ["a", "b", "c"]).1
      "c" (by decide)).1
  · exact (generate_unique_session_name_spec ["x"] ["y"] ["x", "y"]).2
      (by decide)

/-- Helper for the run loop: no number of steps makes the loop body return,
because no branch of the fuel-indexed loop produces the returned outcome. -/
theorem session_run_no_exit_aux (genName : String) (envName : Option String) :
    ∀ (n : Nat) (st : SessionState) (evs : List (Option HandlerEvent)),
      Session.run genName envName n st evs ≠ RunOutcome.returned := by
  intro n
  induction n with
  | zero =>
      intro st evs
      simp [Session.run]
  | succ k ih =>
      intro st evs
      cases evs with
      | nil => simpa [Session.run] using ih st []
      | cons oe rest =>
          cases oe with
          | none => simpa [Session.run] using ih st rest
          | some ev =>
              cases hh : Session.handle_handler_event genName envName st ev with
              | none => simp [Session.run, hh]
              | some p =>
                  obtain ⟨st2, effs⟩ := p
                  simpa [Session.run, hh] using ih st2 rest

/-- C10: the bridge event loop never returns — after any number of steps,
over any stream of received events, the outcome is never a normal return —
and when the event channel is closed (recv keeps yielding none) each
iteration just retries with the state unchanged. -/
theorem session_run_never_returns (genName : String) (envName : Option String) :
    (∀ (n : Nat) (st : SessionState) (evs : List (Option HandlerEvent)),
        Session.run genName envName n st evs ≠ RunOutcome.returned)
    ∧ (∀ (n : Nat) (st : SessionState),
        Session.run genName envName (n + 1) st []
          = Session.run genName envName n st []) :=
  ⟨session_run_no_exit_aux genName envName, fun _ _ => rfl⟩

/-- C10 witness: three steps on the fresh state with a closed event channel
do not return, and one closed-channel iteration retries unchanged. -/
theorem session_run_never_returns_witness :
    Session.run "s" none 3 Session.new [] ≠ RunOutcome.returned
    ∧ Session.run "s" none (2 + 1) Session.new []
        = Session.run "s" none 2 Session.new [] :=
  ⟨(session_run_never_returns "s" none).1 3 Session.new [],
   (session_run_never_returns "s" none).2 2 Session.new⟩
